import Mathlib

/-!
Verification of the CUBE3D flight-dynamics engine (src/flight_dynamics.h,
src/flight_dynamics.cpp, src/flight_dynamics_behavior.h).

The C++ code works on `float`; the model below works on `ℝ`, so every
floating-point quantity is embedded as a real number and the float literals
of the source become the corresponding rational constants.  All definitions
are direct transcriptions of the source functions.
-/

noncomputable section

/-- GRAVITY constant of FlightDynamics (flight_dynamics.h line 157). -/
def GRAVITY : ℝ := 9.81

/-- AIR_DENSITY constant of FlightDynamics (flight_dynamics.h line 158). -/
def AIR_DENSITY : ℝ := 1.225

/-- The float literal PI used by the angle normalization
(flight_dynamics.cpp line 228). -/
def PI : ℝ := 3.14159265359

/-- Vec3 from math_utils.h. -/
@[ext]
structure Vec3 where
  x : ℝ
  y : ℝ
  z : ℝ

/-- v3_add from math_utils.h. -/
def v3_add (a b : Vec3) : Vec3 := ⟨a.x + b.x, a.y + b.y, a.z + b.z⟩

/-- v3_scale from math_utils.h. -/
def v3_scale (v : Vec3) (s : ℝ) : Vec3 := ⟨v.x * s, v.y * s, v.z * s⟩

/-- v3_dot from math_utils.h. -/
def v3_dot (a b : Vec3) : ℝ := a.x * b.x + a.y * b.y + a.z * b.z

/-- v3_length from math_utils.h. -/
def v3_length (v : Vec3) : ℝ := Real.sqrt (v3_dot v v)

/-- v3_norm from math_utils.h: the length is guarded below by 1e-20 before
taking the square root. -/
def v3_norm (v : Vec3) : Vec3 :=
  let len := Real.sqrt (max 1e-20 (v3_dot v v))
  ⟨v.x / len, v.y / len, v.z / len⟩

/-- The static clamp helper of flight_dynamics.cpp (lines 9-11):
`(std::max)(min, (std::min)(max, v))`. -/
def clamp (v lo hi : ℝ) : ℝ := max lo (min hi v)

/-- One iteration group of the angle normalization: the loop
`while (angle > PI) angle -= 2.0f * PI` (flight_dynamics.cpp lines 229, 231, 233). -/
def wrapDown (a : ℝ) : ℝ :=
  if PI < a then wrapDown (a - 2 * PI) else a
termination_by (⌈(a - PI) / (2 * PI)⌉).toNat
decreasing_by
  have hpi : (0:ℝ) < PI := by norm_num [PI]
  have hx : (0:ℝ) < (a - PI) / (2 * PI) := by
    apply div_pos (by linarith) (by linarith)
  have hceil : 0 < ⌈(a - PI) / (2 * PI)⌉ := Int.ceil_pos.mpr hx
  have harg : (a - 2 * PI - PI) / (2 * PI) = (a - PI) / (2 * PI) - 1 := by
    field_simp
    ring
  rw [harg, Int.ceil_sub_one]
  omega

/-- One iteration group of the angle normalization: the loop
`while (angle < -PI) angle += 2.0f * PI` (flight_dynamics.cpp lines 230, 232, 234). -/
def wrapUp (a : ℝ) : ℝ :=
  if a < -PI then wrapUp (a + 2 * PI) else a
termination_by (⌈(-PI - a) / (2 * PI)⌉).toNat
decreasing_by
  have hpi : (0:ℝ) < PI := by norm_num [PI]
  have hx : (0:ℝ) < (-PI - a) / (2 * PI) := by
    apply div_pos (by linarith) (by linarith)
  have hceil : 0 < ⌈(-PI - a) / (2 * PI)⌉ := Int.ceil_pos.mpr hx
  have harg : (-PI - (a + 2 * PI)) / (2 * PI) = (-PI - a) / (2 * PI) - 1 := by
    field_simp
    ring
  rw [harg, Int.ceil_sub_one]
  omega

/-- The full per-angle normalization of flight_dynamics.cpp lines 229-234:
first the subtracting loop, then the adding loop. -/
def wrapAngle (a : ℝ) : ℝ := wrapUp (wrapDown a)

theorem wrapDown_le (a : ℝ) : wrapDown a ≤ PI := by
  induction a using wrapDown.induct with
  | case1 a h ih => rw [wrapDown, if_pos h]; exact ih
  | case2 a h => rw [wrapDown, if_neg h]; exact not_lt.mp h

theorem wrapUp_mem (a : ℝ) (h : a ≤ PI) : -PI ≤ wrapUp a ∧ wrapUp a ≤ PI := by
  induction a using wrapUp.induct with
  | case1 a hlt ih =>
    rw [wrapUp, if_pos hlt]
    have hpi : (0:ℝ) < PI := by norm_num [PI]
    exact ih (by linarith)
  | case2 a hge =>
    rw [wrapUp, if_neg hge]
    exact ⟨not_lt.mp hge, h⟩

theorem wrapAngle_mem (a : ℝ) : -PI ≤ wrapAngle a ∧ wrapAngle a ≤ PI :=
  wrapUp_mem (wrapDown a) (wrapDown_le a)

theorem wrapDown_of_le {a : ℝ} (h : a ≤ PI) : wrapDown a = a := by
  rw [wrapDown, if_neg (not_lt.mpr h)]

theorem wrapUp_of_le {a : ℝ} (h : -PI ≤ a) : wrapUp a = a := by
  rw [wrapUp, if_neg (not_lt.mpr h)]

theorem wrapAngle_of_mem {a : ℝ} (h1 : -PI ≤ a) (h2 : a ≤ PI) : wrapAngle a = a := by
  rw [wrapAngle, wrapDown_of_le h2, wrapUp_of_le h1]

theorem wrapAngle_zero : wrapAngle 0 = 0 :=
  wrapAngle_of_mem (by norm_num [PI]) (by norm_num [PI])

/-- AircraftState (flight_dynamics.h lines 9-39). `velocity` is in body frame,
`position` in world frame, angles in radians. -/
structure AircraftState where
  position : Vec3
  pitch : ℝ
  yaw : ℝ
  roll : ℝ
  velocity : Vec3
  speed : ℝ
  pitchRate : ℝ
  yawRate : ℝ
  rollRate : ℝ
  acceleration : Vec3
  angularAcceleration : Vec3

/-- The AircraftState default constructor (flight_dynamics.h lines 31-38). -/
def AircraftState.default : AircraftState :=
  ⟨⟨0, 0, 0⟩, 0, 0, 0, ⟨0, 0, 0⟩, 0, 0, 0, 0, ⟨0, 0, 0⟩, ⟨0, 0, 0⟩⟩

/-- ControlInputs (flight_dynamics.h lines 43-59). -/
structure ControlInputs where
  elevator : ℝ
  aileron : ℝ
  rudder : ℝ
  throttle : ℝ

/-- The ControlInputs default constructor, which is also what
ControlInputs::reset restores (flight_dynamics.h lines 49-58). -/
def ControlInputs.default : ControlInputs := ⟨0, 0, 0, 0.5⟩

/-- AircraftParams (flight_dynamics.h lines 63-103). -/
structure AircraftParams where
  mass : ℝ
  wingArea : ℝ
  wingspan : ℝ
  liftCoeff : ℝ
  dragCoeff : ℝ
  sideForceCoeff : ℝ
  elevatorPower : ℝ
  aileronPower : ℝ
  rudderPower : ℝ
  maxThrust : ℝ
  pitchStability : ℝ
  rollStability : ℝ
  yawStability : ℝ

/-- The default L-39 Albatros parameters (flight_dynamics.h lines 88-102). -/
def AircraftParams.default : AircraftParams :=
  ⟨4700, 18.8, 9.46, 0.5, 0.025, 0, 2, 3, 1.5, 16870, 0.8, 0.9, 0.7⟩

/-- The roll-rotation block shared by bodyToWorld (flight_dynamics.cpp
lines 292-299) and, at a negated angle, worldToBody (lines 344-351):
`{x*cosR - y*sinR, x*sinR + y*cosR, z}`. -/
def rollRot (a : ℝ) (v : Vec3) : Vec3 :=
  ⟨v.x * Real.cos a - v.y * Real.sin a, v.x * Real.sin a + v.y * Real.cos a, v.z⟩

/-- The pitch-rotation block shared by bodyToWorld (flight_dynamics.cpp
lines 301-308) and, at a negated angle, worldToBody (lines 335-342):
`{x, y*cosP - z*sinP, y*sinP + z*cosP}`. -/
def pitchRot (a : ℝ) (v : Vec3) : Vec3 :=
  ⟨v.x, v.y * Real.cos a - v.z * Real.sin a, v.y * Real.sin a + v.z * Real.cos a⟩

/-- The yaw-rotation block shared by bodyToWorld (flight_dynamics.cpp
lines 310-317) and, at a negated angle, worldToBody (lines 326-333):
`{x*cosY - z*sinY, y, x*sinY + z*cosY}`. -/
def yawRot (a : ℝ) (v : Vec3) : Vec3 :=
  ⟨v.x * Real.cos a - v.z * Real.sin a, v.y, v.x * Real.sin a + v.z * Real.cos a⟩

/-- FlightDynamics::bodyToWorld (flight_dynamics.cpp lines 287-320):
roll rotation, then pitch rotation, then yaw rotation, at the given
orientation snapshot. -/
def bodyToWorld (pitch yaw roll : ℝ) (bodyVec : Vec3) : Vec3 :=
  yawRot yaw (pitchRot pitch (rollRot roll bodyVec))

/-- FlightDynamics::worldToBody (flight_dynamics.cpp lines 322-354):
the same three blocks with negated angles, applied in the reverse order
yaw, pitch, roll. -/
def worldToBody (pitch yaw roll : ℝ) (worldVec : Vec3) : Vec3 :=
  rollRot (-roll) (pitchRot (-pitch) (yawRot (-yaw) worldVec))

theorem rollRot_neg_rollRot (a : ℝ) (v : Vec3) : rollRot (-a) (rollRot a v) = v := by
  have h := Real.sin_sq_add_cos_sq a
  ext
  · simp only [rollRot, Real.cos_neg, Real.sin_neg]
    ring_nf
    linear_combination v.x * h
  · simp only [rollRot, Real.cos_neg, Real.sin_neg]
    ring_nf
    linear_combination v.y * h
  · rfl

theorem pitchRot_neg_pitchRot (a : ℝ) (v : Vec3) : pitchRot (-a) (pitchRot a v) = v := by
  have h := Real.sin_sq_add_cos_sq a
  ext
  · rfl
  · simp only [pitchRot, Real.cos_neg, Real.sin_neg]
    ring_nf
    linear_combination v.y * h
  · simp only [pitchRot, Real.cos_neg, Real.sin_neg]
    ring_nf
    linear_combination v.z * h

theorem yawRot_neg_yawRot (a : ℝ) (v : Vec3) : yawRot (-a) (yawRot a v) = v := by
  have h := Real.sin_sq_add_cos_sq a
  ext
  · simp only [yawRot, Real.cos_neg, Real.sin_neg]
    ring_nf
    linear_combination v.x * h
  · rfl
  · simp only [yawRot, Real.cos_neg, Real.sin_neg]
    ring_nf
    linear_combination v.z * h

theorem rollRot_rollRot_neg (a : ℝ) (v : Vec3) : rollRot a (rollRot (-a) v) = v := by
  have h := rollRot_neg_rollRot (-a) v
  rwa [neg_neg] at h

theorem pitchRot_pitchRot_neg (a : ℝ) (v : Vec3) : pitchRot a (pitchRot (-a) v) = v := by
  have h := pitchRot_neg_pitchRot (-a) v
  rwa [neg_neg] at h

theorem yawRot_yawRot_neg (a : ℝ) (v : Vec3) : yawRot a (yawRot (-a) v) = v := by
  have h := yawRot_neg_yawRot (-a) v
  rwa [neg_neg] at h

theorem worldToBody_bodyToWorld (p y r : ℝ) (v : Vec3) :
    worldToBody p y r (bodyToWorld p y r v) = v := by
  rw [worldToBody, bodyToWorld, yawRot_neg_yawRot, pitchRot_neg_pitchRot,
    rollRot_neg_rollRot]

theorem bodyToWorld_worldToBody (p y r : ℝ) (v : Vec3) :
    bodyToWorld p y r (worldToBody p y r v) = v := by
  rw [worldToBody, bodyToWorld, rollRot_rollRot_neg, pitchRot_pitchRot_neg,
    yawRot_yawRot_neg]

/-- The dynamic pressure `q = 0.5f * AIR_DENSITY * speed * speed`
(flight_dynamics.cpp line 97). -/
def dynamicPressure (st : AircraftState) : ℝ :=
  0.5 * AIR_DENSITY * st.speed * st.speed

/-- The angle of attack `pitch + elevator * 0.3f`
(flight_dynamics.cpp line 101). -/
def angleOfAttack (st : AircraftState) (ct : ControlInputs) : ℝ :=
  st.pitch + ct.elevator * 0.3

/-- The drag force block of FlightDynamics::computeForces
(flight_dynamics.cpp lines 110-127): zero when `speed > 0.1f` fails,
otherwise opposite to the body-frame velocity direction `velocity / speed`
with magnitude `q * wingArea * dragCoeff`. -/
def dragForce (pr : AircraftParams) (st : AircraftState) (ct : ControlInputs) : Vec3 :=
  let q := dynamicPressure st
  let aoa := angleOfAttack st ct
  let dragCoeff := pr.dragCoeff * (1 + aoa * aoa * 5)
  let drag := q * pr.wingArea * dragCoeff
  if 0.1 < st.speed then
    ⟨-(st.velocity.x / st.speed) * drag,
     -(st.velocity.y / st.speed) * drag,
     -(st.velocity.z / st.speed) * drag⟩
  else ⟨0, 0, 0⟩

/-- The torque block of FlightDynamics::computeForces (flight_dynamics.cpp
lines 132-155): control moments scaled by the clamped control power, minus
the rate damping, packed as `{pitchMoment, yawMoment, rollMoment}`. -/
def controlTorque (pr : AircraftParams) (st : AircraftState) (ct : ControlInputs) : Vec3 :=
  let q := dynamicPressure st
  let controlPower := clamp (q * 0.03) 5 150
  let dampingFactor := q * 0.001
  let pitchMoment :=
    -ct.elevator * pr.elevatorPower * controlPower
      - st.pitchRate * pr.pitchStability * dampingFactor
  let rollMoment :=
    ct.aileron * pr.aileronPower * controlPower
      - st.rollRate * pr.rollStability * dampingFactor
  let yawMoment :=
    ct.rudder * pr.rudderPower * controlPower
      - st.yawRate * pr.yawStability * dampingFactor
  ⟨pitchMoment, yawMoment, rollMoment⟩

/-- FlightDynamics::computeForces (flight_dynamics.cpp lines 75-156),
returning the pair (force, torque), both in body frame. -/
def computeForces (pr : AircraftParams) (st : AircraftState) (ct : ControlInputs) :
    Vec3 × Vec3 :=
  let thrust := ct.throttle * pr.maxThrust
  let thrustForce : Vec3 := ⟨0, 0, -thrust⟩
  let gravityWorld : Vec3 := ⟨0, -(pr.mass * GRAVITY), 0⟩
  let gravity := worldToBody st.pitch st.yaw st.roll gravityWorld
  let q := dynamicPressure st
  let aoa := angleOfAttack st ct
  let liftCoeff := clamp (pr.liftCoeff * (1 + aoa * 3)) (-0.5) 1.5
  let lift := q * pr.wingArea * liftCoeff
  let liftForce : Vec3 := ⟨0, lift, 0⟩
  let force := v3_add thrustForce (v3_add gravity (v3_add liftForce (dragForce pr st ct)))
  (force, controlTorque pr st ct)

/-- FlightDynamics::integrateState (flight_dynamics.cpp lines 158-275):
angular integration with rate clamps and angle normalization, then linear
integration in world frame, then the minimum-flying-speed floor. -/
def integrateState (pr : AircraftParams) (st : AircraftState) (dt : ℝ)
    (force torque : Vec3) : AircraftState :=
  let Ixx := pr.mass * pr.wingspan * pr.wingspan * 0.0008
  let Iyy := pr.mass * 12.0 * 12.0 * 0.0008
  let Izz := pr.mass * pr.wingspan * pr.wingspan * 0.0010
  let pitchAccel := torque.x / Iyy
  let yawAccel := torque.y / Izz
  let rollAccel := torque.z / Ixx
  let pitchRate := clamp (st.pitchRate + pitchAccel * dt) (-4) 4
  let yawRate := clamp (st.yawRate + yawAccel * dt) (-3) 3
  let rollRate := clamp (st.rollRate + rollAccel * dt) (-6) 6
  let pitch := wrapAngle (st.pitch + pitchRate * dt)
  let yaw := wrapAngle (st.yaw + yawRate * dt)
  let roll := wrapAngle (st.roll + rollRate * dt)
  let forceWorld := bodyToWorld pitch yaw roll force
  let accel : Vec3 := ⟨forceWorld.x / pr.mass, forceWorld.y / pr.mass, forceWorld.z / pr.mass⟩
  let vw0 := bodyToWorld pitch yaw roll st.velocity
  let velocityWorld : Vec3 :=
    ⟨vw0.x + accel.x * dt, vw0.y + accel.y * dt, vw0.z + accel.z * dt⟩
  let velocity := worldToBody pitch yaw roll velocityWorld
  let position : Vec3 :=
    ⟨st.position.x + velocityWorld.x * dt,
     st.position.y + velocityWorld.y * dt,
     st.position.z + velocityWorld.z * dt⟩
  let speed := v3_length velocityWorld
  if speed < 20 then
    if 0.1 < v3_length velocityWorld then
      let dir := v3_norm velocityWorld
      let velocityWorld2 := v3_scale dir 20
      { st with position := position, pitch := pitch, yaw := yaw, roll := roll,
                velocity := worldToBody pitch yaw roll velocityWorld2, speed := 20,
                pitchRate := pitchRate, yawRate := yawRate, rollRate := rollRate }
    else
      { st with position := position, pitch := pitch, yaw := yaw, roll := roll,
                velocity := velocity, speed := 20,
                pitchRate := pitchRate, yawRate := yawRate, rollRate := rollRate }
  else
    { st with position := position, pitch := pitch, yaw := yaw, roll := roll,
              velocity := velocity, speed := speed,
              pitchRate := pitchRate, yawRate := yawRate, rollRate := rollRate }

/-- The ground constraint of FlightDynamics::update (flight_dynamics.cpp
lines 63-72): clamp `position.y` to 2, and if the body-frame vertical
velocity is negative, zero it and multiply the horizontal components
by 0.95. -/
def groundClamp (st : AircraftState) : AircraftState :=
  if st.position.y < 2 then
    let clamped := { st with position := ⟨st.position.x, 2, st.position.z⟩ }
    if st.velocity.y < 0 then
      { clamped with velocity := ⟨st.velocity.x * 0.95, 0, st.velocity.z * 0.95⟩ }
    else clamped
  else st

/-- FlightDynamics::update (flight_dynamics.cpp lines 53-73) acting on the
m_state member, with m_params and m_controls read-only: the dt sanity check,
one computeForces call, one integrateState call, then the ground constraint. -/
def updateState (pr : AircraftParams) (ct : ControlInputs) (st : AircraftState) (dt : ℝ) :
    AircraftState :=
  if dt ≤ 0 ∨ 1 < dt then st
  else
    let ft := computeForces pr st ct
    groundClamp (integrateState pr st dt ft.1 ft.2)

/-- A sequence of FlightDynamics::update calls, each preceded by a
setControlInputs call (flight_dynamics.cpp lines 49-51): the list carries
the per-frame (deltaTime, controls) pairs. -/
def runUpdates (pr : AircraftParams) (st : AircraftState)
    (steps : List (ℝ × ControlInputs)) : AircraftState :=
  steps.foldl (fun s p => updateState pr p.2 s p.1) st

/-- The FlightDynamics class members (flight_dynamics.h lines 139-155). -/
structure FlightDynamics where
  m_state : AircraftState
  m_params : AircraftParams
  m_controls : ControlInputs
  m_initialPosition : Vec3
  m_initialHeading : ℝ

/-- FlightDynamics::reset (flight_dynamics.cpp lines 33-47): default
AircraftState with the remembered position and heading, body-frame velocity
{0, 0, -50}, speed 50, and default controls. -/
def FlightDynamics.reset (fd : FlightDynamics) : FlightDynamics :=
  { fd with
    m_state := { AircraftState.default with
                 position := fd.m_initialPosition,
                 yaw := fd.m_initialHeading,
                 velocity := ⟨0, 0, -50⟩,
                 speed := 50 },
    m_controls := ControlInputs.default }

/-- FlightDynamics::initialize (flight_dynamics.cpp lines 27-31): remember
position and heading, then reset. -/
def FlightDynamics.init (fd : FlightDynamics) (position : Vec3) (heading : ℝ) :
    FlightDynamics :=
  FlightDynamics.reset
    { fd with m_initialPosition := position, m_initialHeading := heading }

/-- The FlightDynamics default constructor (flight_dynamics.cpp lines 17-22):
initial position {0, 100, 0}, heading 0, then reset. -/
def FlightDynamics.mkDefault : FlightDynamics :=
  FlightDynamics.reset
    ⟨AircraftState.default, AircraftParams.default, ControlInputs.default, ⟨0, 100, 0⟩, 0⟩

/-- FlightDynamics::update at the engine level (flight_dynamics.cpp
lines 53-73): only m_state is written. -/
def FlightDynamics.update (fd : FlightDynamics) (dt : ℝ) : FlightDynamics :=
  { fd with m_state := updateState fd.m_params fd.m_controls fd.m_state dt }

/-- FlightDynamicsBehavior::initialize (flight_dynamics_behavior.h
lines 17-44): call the engine initialization at the entity pose, then
overwrite the stored velocity with `(-50 sin h, 0, -50 cos h)`, the speed
with 50 and the throttle with 0.7. -/
def behaviorInit (fd : FlightDynamics) (pos : Vec3) (heading : ℝ) : FlightDynamics :=
  let fd1 := FlightDynamics.init fd pos heading
  { fd1 with
    m_state := { fd1.m_state with
                 velocity := ⟨-50 * Real.sin heading, 0, -50 * Real.cos heading⟩,
                 speed := 50 },
    m_controls := { fd1.m_controls with throttle := 0.7 } }

theorem integrateState_pitch (pr : AircraftParams) (st : AircraftState) (dt : ℝ)
    (f t : Vec3) :
    (integrateState pr st dt f t).pitch =
      wrapAngle (st.pitch +
        clamp (st.pitchRate + t.x / (pr.mass * 12.0 * 12.0 * 0.0008) * dt) (-4) 4 * dt) := by
  simp only [integrateState]
  split_ifs <;> rfl

theorem integrateState_yaw (pr : AircraftParams) (st : AircraftState) (dt : ℝ)
    (f t : Vec3) :
    (integrateState pr st dt f t).yaw =
      wrapAngle (st.yaw +
        clamp (st.yawRate + t.y / (pr.mass * pr.wingspan * pr.wingspan * 0.0010) * dt)
          (-3) 3 * dt) := by
  simp only [integrateState]
  split_ifs <;> rfl

theorem integrateState_roll (pr : AircraftParams) (st : AircraftState) (dt : ℝ)
    (f t : Vec3) :
    (integrateState pr st dt f t).roll =
      wrapAngle (st.roll +
        clamp (st.rollRate + t.z / (pr.mass * pr.wingspan * pr.wingspan * 0.0008) * dt)
          (-6) 6 * dt) := by
  simp only [integrateState]
  split_ifs <;> rfl

theorem integrateState_speed_ge (pr : AircraftParams) (st : AircraftState) (dt : ℝ)
    (f t : Vec3) : 20 ≤ (integrateState pr st dt f t).speed := by
  simp only [integrateState]
  split_ifs with h1 h2
  · norm_num
  · norm_num
  · simpa using not_lt.mp h1

theorem groundClamp_speed (st : AircraftState) : (groundClamp st).speed = st.speed := by
  simp only [groundClamp]
  split_ifs <;> rfl

theorem groundClamp_pitch (st : AircraftState) : (groundClamp st).pitch = st.pitch := by
  simp only [groundClamp]
  split_ifs <;> rfl

theorem groundClamp_yaw (st : AircraftState) : (groundClamp st).yaw = st.yaw := by
  simp only [groundClamp]
  split_ifs <;> rfl

theorem groundClamp_roll (st : AircraftState) : (groundClamp st).roll = st.roll := by
  simp only [groundClamp]
  split_ifs <;> rfl

theorem groundClamp_y_ge (st : AircraftState) :
    2 ≤ (groundClamp st).position.y := by
  simp only [groundClamp]
  split_ifs with h1 h2
  · norm_num
  · norm_num
  · exact not_lt.mp h1

theorem groundClamp_velocity_fired (st : AircraftState)
    (hy : st.position.y < 2) (hv : st.velocity.y < 0) :
    (groundClamp st).velocity = ⟨st.velocity.x * 0.95, 0, st.velocity.z * 0.95⟩ := by
  simp only [groundClamp]
  rw [if_pos hy, if_pos hv]

theorem updateState_of_valid (pr : AircraftParams) (ct : ControlInputs)
    (st : AircraftState) (dt : ℝ) (h1 : 0 < dt) (h2 : dt ≤ 1) :
    updateState pr ct st dt =
      groundClamp (integrateState pr st dt
        (computeForces pr st ct).1 (computeForces pr st ct).2) := by
  rw [updateState, if_neg (by push_neg; exact ⟨h1, h2⟩)]

theorem updateState_speed_ge (pr : AircraftParams) (ct : ControlInputs)
    (st : AircraftState) (dt : ℝ) (h1 : 0 < dt) (h2 : dt ≤ 1) :
    20 ≤ (updateState pr ct st dt).speed := by
  rw [updateState_of_valid pr ct st dt h1 h2, groundClamp_speed]
  exact integrateState_speed_ge pr st dt _ _

/-- Claim C1: for every orientation snapshot (pitch, yaw, roll) and every
vector v, worldToBody applied to bodyToWorld of v returns v: the two frame
transforms are mutual inverses of each other (exactly, in the real-number
model, hence within any positive tolerance), and both are pure functions of
the orientation and the input vector. -/
theorem C1_frame_transform_roundtrip (pitch yaw roll : ℝ) (v : Vec3) :
    worldToBody pitch yaw roll (bodyToWorld pitch yaw roll v) = v :=
  worldToBody_bodyToWorld pitch yaw roll v

/-- Claim C2: after any nonempty sequence of update calls whose timesteps
are all valid (0 < dt ≤ 1), the resulting speed is at least 20; in
particular no such sequence drives the speed below 20. -/
theorem C2_minimum_speed_floor (pr : AircraftParams) :
    ∀ (steps : List (ℝ × ControlInputs)) (st : AircraftState),
      (∀ p ∈ steps, 0 < p.1 ∧ p.1 ≤ 1) → steps ≠ [] →
      20 ≤ (runUpdates pr st steps).speed := by
  intro steps
  induction steps with
  | nil => intro st _ hne; exact absurd rfl hne
  | cons p rest ih =>
    intro st hvalid _
    have hp : 0 < p.1 ∧ p.1 ≤ 1 := hvalid p (List.mem_cons_self p rest)
    rcases rest with _ | ⟨q, rest2⟩
    · simpa [runUpdates] using updateState_speed_ge pr p.2 st p.1 hp.1 hp.2
    · have hrest : ∀ r ∈ q :: rest2, 0 < r.1 ∧ r.1 ≤ 1 := by
        intro r hr
        exact hvalid r (List.mem_cons_of_mem p hr)
      simpa [runUpdates] using
        ih (updateState pr p.2 st p.1) hrest (by simp)

theorem C2_minimum_speed_floor_witness :
    20 ≤ (runUpdates AircraftParams.default AircraftState.default
            [(1, ControlInputs.default)]).speed :=
  C2_minimum_speed_floor AircraftParams.default [(1, ControlInputs.default)]
    AircraftState.default
    (by intro p hp; simp only [List.mem_singleton] at hp; subst hp; norm_num)
    (by simp)

/-- Claim C3: after every update with valid dt the altitude is at least 2,
and whenever the clamp fires (post-integration position.y below 2) with a
negative body-frame vertical velocity, that component is zeroed and the
horizontal body-frame components are multiplied by 0.95, exactly once. -/
theorem C3_ground_clamp (pr : AircraftParams) (ct : ControlInputs)
    (st : AircraftState) (dt : ℝ) (h1 : 0 < dt) (h2 : dt ≤ 1) :
    2 ≤ (updateState pr ct st dt).position.y ∧
    ((integrateState pr st dt (computeForces pr st ct).1
        (computeForces pr st ct).2).position.y < 2 →
     (integrateState pr st dt (computeForces pr st ct).1
        (computeForces pr st ct).2).velocity.y < 0 →
     (updateState pr ct st dt).velocity =
       ⟨(integrateState pr st dt (computeForces pr st ct).1
           (computeForces pr st ct).2).velocity.x * 0.95, 0,
        (integrateState pr st dt (computeForces pr st ct).1
           (computeForces pr st ct).2).velocity.z * 0.95⟩) := by
  rw [updateState_of_valid pr ct st dt h1 h2]
  exact ⟨groundClamp_y_ge _, fun hy hv => groundClamp_velocity_fired _ hy hv⟩

theorem C3_ground_clamp_witness :
    2 ≤ (updateState AircraftParams.default ControlInputs.default
           AircraftState.default 1).position.y ∧
    ((integrateState AircraftParams.default AircraftState.default 1
        (computeForces AircraftParams.default AircraftState.default
          ControlInputs.default).1
        (computeForces AircraftParams.default AircraftState.default
          ControlInputs.default).2).position.y < 2 →
     (integrateState AircraftParams.default AircraftState.default 1
        (computeForces AircraftParams.default AircraftState.default
          ControlInputs.default).1
        (computeForces AircraftParams.default AircraftState.default
          ControlInputs.default).2).velocity.y < 0 →
     (updateState AircraftParams.default ControlInputs.default
        AircraftState.default 1).velocity =
       ⟨(integrateState AircraftParams.default AircraftState.default 1
           (computeForces AircraftParams.default AircraftState.default
             ControlInputs.default).1
           (computeForces AircraftParams.default AircraftState.default
             ControlInputs.default).2).velocity.x * 0.95, 0,
        (integrateState AircraftParams.default AircraftState.default 1
           (computeForces AircraftParams.default AircraftState.default
             ControlInputs.default).1
           (computeForces AircraftParams.default AircraftState.default
             ControlInputs.default).2).velocity.z * 0.95⟩) :=
  C3_ground_clamp AircraftParams.default ControlInputs.default
    AircraftState.default 1 (by norm_num) (by norm_num)

/-- Claim C5: for every engine state and every dt with dt ≤ 0 or dt > 1,
the update call is a complete no-op: every member of the engine, state and
controls included, is unchanged, and no error is reported (the function is
total). -/
theorem C5_invalid_dt_noop (fd : FlightDynamics) (dt : ℝ) (h : dt ≤ 0 ∨ 1 < dt) :
    FlightDynamics.update fd dt = fd := by
  simp only [FlightDynamics.update, updateState, if_pos h]

theorem C5_invalid_dt_noop_witness :
    FlightDynamics.update FlightDynamics.mkDefault 2 = FlightDynamics.mkDefault :=
  C5_invalid_dt_noop FlightDynamics.mkDefault 2 (Or.inr (by norm_num))

/-- Claim C4 (amended): after every update with valid dt, each Euler angle
lies in the closed interval [-PI, PI]; the wrap handles angles arbitrarily
far outside the range by repeated adjustment.  The half-open interval
(-PI, PI] of the original claim is refuted by the counterexample below:
-PI is a fixed point of both wrap loops. -/
theorem C4_angles_normalized (pr : AircraftParams) (ct : ControlInputs)
    (st : AircraftState) (dt : ℝ) (h1 : 0 < dt) (h2 : dt ≤ 1) :
    (-PI ≤ (updateState pr ct st dt).pitch ∧ (updateState pr ct st dt).pitch ≤ PI) ∧
    (-PI ≤ (updateState pr ct st dt).yaw ∧ (updateState pr ct st dt).yaw ≤ PI) ∧
    (-PI ≤ (updateState pr ct st dt).roll ∧ (updateState pr ct st dt).roll ≤ PI) := by
  rw [updateState_of_valid pr ct st dt h1 h2, groundClamp_pitch, groundClamp_yaw,
    groundClamp_roll, integrateState_pitch, integrateState_yaw, integrateState_roll]
  exact ⟨wrapAngle_mem _, wrapAngle_mem _, wrapAngle_mem _⟩

theorem C4_angles_normalized_witness :
    (-PI ≤ (updateState AircraftParams.default ControlInputs.default
              AircraftState.default 1).pitch ∧
     (updateState AircraftParams.default ControlInputs.default
        AircraftState.default 1).pitch ≤ PI) ∧
    (-PI ≤ (updateState AircraftParams.default ControlInputs.default
              AircraftState.default 1).yaw ∧
     (updateState AircraftParams.default ControlInputs.default
        AircraftState.default 1).yaw ≤ PI) ∧
    (-PI ≤ (updateState AircraftParams.default ControlInputs.default
              AircraftState.default 1).roll ∧
     (updateState AircraftParams.default ControlInputs.default
        AircraftState.default 1).roll ≤ PI) :=
  C4_angles_normalized AircraftParams.default ControlInputs.default
    AircraftState.default 1 (by norm_num) (by norm_num)

/-- All-zero control inputs (throttle fully idle). -/
def zeroControls : ControlInputs := ⟨0, 0, 0, 0⟩

/-- A state with pitch 0, pitch rate exactly -PI and zero speed: with zero
controls the pitch torque vanishes, so one 1-second step drives the pitch to
exactly -PI, which both wrap loops leave untouched. -/
def pitchBoundaryState : AircraftState :=
  { AircraftState.default with position := ⟨0, 100, 0⟩, pitchRate := -PI }

theorem C4_counterexample :
    ¬ (-PI < (updateState AircraftParams.default zeroControls
                pitchBoundaryState 1).pitch ∧
       (updateState AircraftParams.default zeroControls
          pitchBoundaryState 1).pitch ≤ PI) := by
  have ht : (computeForces AircraftParams.default pitchBoundaryState zeroControls).2 =
      ⟨0, 0, 0⟩ := by
    simp only [computeForces, controlTorque, dynamicPressure, clamp, zeroControls,
      pitchBoundaryState, AircraftState.default, AircraftParams.default, AIR_DENSITY]
    norm_num [Vec3.mk.injEq]
  have hp : (updateState AircraftParams.default zeroControls
      pitchBoundaryState 1).pitch = -PI := by
    rw [updateState_of_valid _ _ _ _ (by norm_num) (by norm_num), groundClamp_pitch,
      integrateState_pitch, ht]
    have hclamp : clamp (pitchBoundaryState.pitchRate +
        (Vec3.mk 0 0 0).x / (AircraftParams.default.mass * 12.0 * 12.0 * 0.0008) * 1)
        (-4) 4 = -PI := by
      simp only [pitchBoundaryState, AircraftState.default, AircraftParams.default, clamp]
      norm_num [PI]
    rw [hclamp]
    have hmem : -PI ≤ pitchBoundaryState.pitch + -PI * 1 ∧
        pitchBoundaryState.pitch + -PI * 1 ≤ PI := by
      simp only [pitchBoundaryState, AircraftState.default]
      norm_num [PI]
    rw [wrapAngle_of_mem hmem.1 hmem.2]
    simp only [pitchBoundaryState, AircraftState.default]
    ring
  rw [hp]
  intro hcontra
  exact lt_irrefl _ hcontra.1

/-- Claim C6 (amended): the heading-aware cruise velocity and the 0.7
throttle are set by FlightDynamicsBehavior::initialize, the behavior layer
wrapping the engine; FlightDynamics::initialize itself leaves the generic
reset values, body velocity {0, 0, -50} and throttle 0.5. -/
theorem C6_initialization (fd : FlightDynamics) (p : Vec3) (h : ℝ) :
    (behaviorInit fd p h).m_state.velocity =
      ⟨-50 * Real.sin h, 0, -50 * Real.cos h⟩ ∧
    (behaviorInit fd p h).m_state.speed = 50 ∧
    (behaviorInit fd p h).m_controls.throttle = 0.7 ∧
    (FlightDynamics.init fd p h).m_state.velocity = ⟨0, 0, -50⟩ ∧
    (FlightDynamics.init fd p h).m_controls.throttle = 0.5 := by
  refine ⟨rfl, rfl, rfl, rfl, ?_⟩
  simp only [FlightDynamics.init, FlightDynamics.reset, ControlInputs.default]

/-- Claim C6 as stated is false of the engine's own initialization: after
FlightDynamics::initialize at position {0, 100, 0} and heading 0, the
throttle is the generic reset value 0.5, not the claimed 0.7. -/
theorem C6_counterexample :
    ¬ ((FlightDynamics.init FlightDynamics.mkDefault ⟨0, 100, 0⟩ 0).m_controls.throttle
        = 0.7) := by
  have h5 : (FlightDynamics.init FlightDynamics.mkDefault
      ⟨0, 100, 0⟩ 0).m_controls.throttle = 0.5 := by
    simp only [FlightDynamics.init, FlightDynamics.reset, FlightDynamics.mkDefault,
      ControlInputs.default]
  rw [h5]
  norm_num

/-- Claim C8: with controlPower = clamp(q * 0.03, 5, 150) and
q = 0.5 * 1.225 * speed^2, the torque returned by the force/torque model is
pitch = -elevator*elevatorPower*controlPower - pitchRate*pitchStability*(q*0.001),
yaw = rudder*rudderPower*controlPower - yawRate*yawStability*(q*0.001),
roll = aileron*aileronPower*controlPower - rollRate*rollStability*(q*0.001),
packed as {pitch, yaw, roll}. -/
theorem C8_control_torques (pr : AircraftParams) (st : AircraftState)
    (ct : ControlInputs) :
    (computeForces pr st ct).2 =
      ⟨-ct.elevator * pr.elevatorPower *
          clamp (0.5 * 1.225 * st.speed * st.speed * 0.03) 5 150
        - st.pitchRate * pr.pitchStability * (0.5 * 1.225 * st.speed * st.speed * 0.001),
       ct.rudder * pr.rudderPower *
          clamp (0.5 * 1.225 * st.speed * st.speed * 0.03) 5 150
        - st.yawRate * pr.yawStability * (0.5 * 1.225 * st.speed * st.speed * 0.001),
       ct.aileron * pr.aileronPower *
          clamp (0.5 * 1.225 * st.speed * st.speed * 0.03) 5 150
        - st.rollRate * pr.rollStability * (0.5 * 1.225 * st.speed * st.speed * 0.001)⟩ := by
  simp only [computeForces, controlTorque, dynamicPressure, AIR_DENSITY]

/-- Claim C9 (amended): the drag force is zero whenever speed <= 0.1 (the
source tests `speed > 0.1f`, so at speed exactly 0.1 the drag is zero, not
the formula of the original claim), and for speed > 0.1 it is minus the
body-frame velocity direction `velocity / speed` scaled by
q * wingArea * effectiveDragCoeff with
effectiveDragCoeff = dragCoeff * (1 + angleOfAttack^2 * 5) and
angleOfAttack = pitch + elevator * 0.3. -/
theorem C9_drag_force (pr : AircraftParams) (st : AircraftState) (ct : ControlInputs) :
    dragForce pr st ct =
      if 0.1 < st.speed then
        ⟨-(st.velocity.x / st.speed) *
           (0.5 * 1.225 * st.speed * st.speed * pr.wingArea *
             (pr.dragCoeff * (1 + (st.pitch + ct.elevator * 0.3) ^ 2 * 5))),
         -(st.velocity.y / st.speed) *
           (0.5 * 1.225 * st.speed * st.speed * pr.wingArea *
             (pr.dragCoeff * (1 + (st.pitch + ct.elevator * 0.3) ^ 2 * 5))),
         -(st.velocity.z / st.speed) *
           (0.5 * 1.225 * st.speed * st.speed * pr.wingArea *
             (pr.dragCoeff * (1 + (st.pitch + ct.elevator * 0.3) ^ 2 * 5)))⟩
      else ⟨0, 0, 0⟩ := by
  simp only [dragForce, dynamicPressure, angleOfAttack, AIR_DENSITY]
  split_ifs with h
  · ext <;> ring
  · rfl

/-- A state moving backwards along the body z axis at exactly the drag
threshold speed 0.1. -/
def thresholdState : AircraftState :=
  { AircraftState.default with velocity := ⟨0, 0, -0.1⟩, speed := 0.1 }

/-- Claim C9 as stated is false at speed exactly 0.1: the code produces zero
drag (its test is `speed > 0.1f`), while the claim's formula, which applies
whenever speed is not below 0.1, gives a nonzero vector here. -/
theorem C9_counterexample :
    dragForce AircraftParams.default thresholdState zeroControls = ⟨0, 0, 0⟩ ∧
    ¬ ((⟨0, 0, 0⟩ : Vec3) =
        ⟨0, 0, 0.5 * 1.225 * 0.1 * 0.1 * 18.8 *
              (0.025 * (1 + (0 + 0 * 0.3) ^ 2 * 5))⟩) := by
  constructor
  · simp only [dragForce, thresholdState, AircraftState.default]
    rw [if_neg (by norm_num)]
  · simp only [Vec3.mk.injEq, not_and]
    intro _ _
    norm_num

/-- Claim C10: sideForceCoeff has no effect: two parameter sets that agree
on every other field produce identical force/torque results and identical
state trajectories under any sequence of update calls. -/
theorem C10_sideForceCoeff_unused (p1 p2 : AircraftParams)
    (hmass : p1.mass = p2.mass) (harea : p1.wingArea = p2.wingArea)
    (hspan : p1.wingspan = p2.wingspan) (hlift : p1.liftCoeff = p2.liftCoeff)
    (hdrag : p1.dragCoeff = p2.dragCoeff)
    (helev : p1.elevatorPower = p2.elevatorPower)
    (hail : p1.aileronPower = p2.aileronPower)
    (hrud : p1.rudderPower = p2.rudderPower)
    (hthr : p1.maxThrust = p2.maxThrust)
    (hps : p1.pitchStability = p2.pitchStability)
    (hrs : p1.rollStability = p2.rollStability)
    (hys : p1.yawStability = p2.yawStability) :
    (∀ st ct, computeForces p1 st ct = computeForces p2 st ct) ∧
    (∀ st steps, runUpdates p1 st steps = runUpdates p2 st steps) := by
  have hp : p1 = { p2 with sideForceCoeff := p1.sideForceCoeff } := by
    cases p1
    cases p2
    simp_all
  constructor
  · intro st ct
    rw [hp]
    exact rfl
  · intro st steps
    rw [hp]
    exact rfl

theorem C10_sideForceCoeff_unused_witness :
    computeForces AircraftParams.default AircraftState.default ControlInputs.default =
      computeForces { AircraftParams.default with sideForceCoeff := 1 }
        AircraftState.default ControlInputs.default :=
  (C10_sideForceCoeff_unused AircraftParams.default
    { AircraftParams.default with sideForceCoeff := 1 }
    rfl rfl rfl rfl rfl rfl rfl rfl rfl rfl rfl rfl).1
    AircraftState.default ControlInputs.default

theorem v3_dot_self_nonneg (v : Vec3) : 0 ≤ v3_dot v v := by
  simp only [v3_dot]
  exact add_nonneg (add_nonneg (mul_self_nonneg _) (mul_self_nonneg _)) (mul_self_nonneg _)

theorem length_norm_scale (v : Vec3) (h : 0.1 < v3_length v) :
    v3_length (v3_scale (v3_norm v) 20) = 20 := by
  have hd0 : 0 ≤ v3_dot v v := v3_dot_self_nonneg v
  have hsq : v3_length v * v3_length v = v3_dot v v := Real.mul_self_sqrt hd0
  have hd : 0.01 < v3_dot v v := by nlinarith [h]
  have hd0x : 0 ≤ v.x * v.x + v.y * v.y + v.z * v.z := by
    simpa only [v3_dot] using hd0
  have hmax : max 1e-20 (v.x * v.x + v.y * v.y + v.z * v.z) =
      v.x * v.x + v.y * v.y + v.z * v.z := by
    rw [max_eq_right]
    have h20 : (1e-20 : ℝ) ≤ 0.01 := by norm_num
    simp only [v3_dot] at hd
    linarith
  have hdot : v3_dot (v3_scale (v3_norm v) 20) (v3_scale (v3_norm v) 20) = 400 := by
    simp only [v3_scale, v3_norm, v3_dot]
    field_simp
    linear_combination (-400:ℝ) * hmax
  rw [v3_length, hdot]
  rw [show (400:ℝ) = 20 ^ 2 by norm_num]
  exact Real.sqrt_sq (by norm_num)

/-- Claim C7 (amended): after integrateState, the stored speed equals the
magnitude of bodyToWorld applied to the stored body-frame velocity at the
new orientation, except in the degenerate low-speed branch where that
magnitude is at most 0.1 and the speed is pinned to 20.  (The ground clamp
applied afterwards by update can rescale or zero velocity components
without recomputing speed, so the equality need not survive a full update
call; see the counterexample.) -/
theorem C7_speed_consistency (pr : AircraftParams) (st : AircraftState) (dt : ℝ)
    (f t : Vec3) :
    (integrateState pr st dt f t).speed =
      v3_length (bodyToWorld (integrateState pr st dt f t).pitch
        (integrateState pr st dt f t).yaw (integrateState pr st dt f t).roll
        (integrateState pr st dt f t).velocity) ∨
    ((integrateState pr st dt f t).speed = 20 ∧
     v3_length (bodyToWorld (integrateState pr st dt f t).pitch
        (integrateState pr st dt f t).yaw (integrateState pr st dt f t).roll
        (integrateState pr st dt f t).velocity) ≤ 0.1) := by
  simp only [integrateState]
  split_ifs with h1 h2
  · left
    dsimp only
    rw [bodyToWorld_worldToBody]
    exact (length_norm_scale _ h2).symm
  · right
    dsimp only
    rw [bodyToWorld_worldToBody]
    exact ⟨rfl, not_lt.mp h2⟩
  · left
    dsimp only
    rw [bodyToWorld_worldToBody]

theorem bodyToWorld_zero (v : Vec3) : bodyToWorld 0 0 0 v = v := by
  ext <;> simp [bodyToWorld, yawRot, pitchRot, rollRot]

theorem worldToBody_zero (v : Vec3) : worldToBody 0 0 0 v = v := by
  ext <;> simp [worldToBody, yawRot, pitchRot, rollRot]

/-- A level state at altitude 10 descending and flying backwards along z:
one 1-second step with idle controls brings it below the ground plane with
a negative vertical velocity, so the ground clamp fires. -/
def c7State : AircraftState :=
  { AircraftState.default with position := ⟨0, 10, 0⟩, velocity := ⟨0, -5.19, -20⟩ }

/-- The state after integrateState on c7State: position (0,-5,-20),
velocity (0,-15,-20), speed 25. -/
def c7After : AircraftState :=
  { AircraftState.default with
    position := ⟨0, -5, -20⟩, velocity := ⟨0, -15, -20⟩, speed := 25 }

/-- The state after the ground clamp on c7After: altitude clamped to 2,
velocity (0, 0, -19), but speed still 25. -/
def c7Final : AircraftState :=
  { AircraftState.default with
    position := ⟨0, 2, -20⟩, velocity := ⟨0, 0, -19⟩, speed := 25 }

theorem sqrt625 : Real.sqrt (625:ℝ) = 25 := by
  rw [show (625:ℝ) = 25 ^ 2 by norm_num]
  exact Real.sqrt_sq (by norm_num)

theorem sqrt361 : Real.sqrt (361:ℝ) = 19 := by
  rw [show (361:ℝ) = 19 ^ 2 by norm_num]
  exact Real.sqrt_sq (by norm_num)

theorem c7_computeForces :
    computeForces AircraftParams.default c7State zeroControls =
      (⟨0, -46107, 0⟩, ⟨0, 0, 0⟩) := by
  norm_num [computeForces, controlTorque, dragForce, dynamicPressure, angleOfAttack,
    clamp, c7State, zeroControls, AircraftState.default, AircraftParams.default,
    v3_add, worldToBody_zero, GRAVITY, AIR_DENSITY, Prod.mk.injEq, Vec3.mk.injEq]

theorem c7_integrate :
    integrateState AircraftParams.default c7State 1 ⟨0, -46107, 0⟩ ⟨0, 0, 0⟩ =
      c7After := by
  simp only [integrateState]
  norm_num [wrapAngle_zero, bodyToWorld_zero, worldToBody_zero, clamp, v3_length,
    v3_dot, c7State, c7After, AircraftState.default, AircraftParams.default, sqrt625,
    Vec3.mk.injEq, AircraftState.mk.injEq]

theorem c7_clamp : groundClamp c7After = c7Final := by
  simp only [groundClamp]
  norm_num [c7After, c7Final, AircraftState.default, Vec3.mk.injEq,
    AircraftState.mk.injEq]

/-- Claim C7 as stated is false: after a full update in which the ground
clamp fires, the stored speed (25) differs from the magnitude of the
world-frame velocity (19), because the clamp zeroes and rescales velocity
components without recomputing speed. -/
theorem C7_counterexample :
    ¬ ((updateState AircraftParams.default zeroControls c7State 1).speed =
        v3_length (bodyToWorld
          (updateState AircraftParams.default zeroControls c7State 1).pitch
          (updateState AircraftParams.default zeroControls c7State 1).yaw
          (updateState AircraftParams.default zeroControls c7State 1).roll
          (updateState AircraftParams.default zeroControls c7State 1).velocity)) := by
  have hup : updateState AircraftParams.default zeroControls c7State 1 = c7Final := by
    rw [updateState_of_valid _ _ _ _ (by norm_num) (by norm_num), c7_computeForces]
    dsimp only
    rw [c7_integrate, c7_clamp]
  rw [hup]
  simp only [c7Final, AircraftState.default]
  rw [bodyToWorld_zero]
  norm_num [v3_length, v3_dot, sqrt361]
